import Mathlib

/-!
Verification of the payroll engine (time entries, payroll calculator,
pay-period locking, payroll orchestration) against its specification.

The Python source is shallowly embedded: money and hour amounts are exact
rationals (ℚ); Python `round(x, n)` is modelled as round-half-to-even at
`n` decimal digits, and `Decimal.quantize(..., ROUND_HALF_UP)` as
round-half-away-from-zero at 2 digits; calendar dates are modelled as day
numbers (ℕ) with day-of-week `d % 7` (0 = Monday), which is faithful to
the Monday-indexed `date.weekday()` arithmetic of the source; database
rows become Lean structures and the controller operations become pure
functions returning explicit result values in place of the source's
`(success, message, value)` tuples and row writes.
-/

namespace Payroll

/-- Round a rational to the nearest integer, ties to even
(the rounding of Python's built-in `round`). -/
def rhe (q : ℚ) : ℤ :=
  if q - ⌊q⌋ < 1/2 then ⌊q⌋
  else if 1/2 < q - ⌊q⌋ then ⌊q⌋ + 1
  else if ⌊q⌋ % 2 = 0 then ⌊q⌋ else ⌊q⌋ + 1

/-- Python's `round(x, p)`: round half-to-even at `p` decimal digits. -/
def roundTo (p : ℕ) (q : ℚ) : ℚ :=
  (rhe (q * 10 ^ p) : ℚ) / 10 ^ p

/-- Round a rational to the nearest integer, ties away from zero
(`decimal.ROUND_HALF_UP`). -/
def rhu (q : ℚ) : ℤ :=
  if 0 ≤ q then ⌊q + 1/2⌋ else -⌊-q + 1/2⌋

/-- `round_currency` from `PayrollCalculator.calculate_net_pay`:
quantize to 2 decimal places with `ROUND_HALF_UP`. -/
def round_currency (q : ℚ) : ℚ :=
  (rhu (q * 100) : ℚ) / 100

/-! ## Constants (src/utils/constants.py) -/

def WEEKS_PER_YEAR : ℚ := 52
def STANDARD_WORK_HOURS_PER_WEEK : ℚ := 40
def MAX_HOURS_PER_DAY : ℚ := 24
def OVERTIME_THRESHOLD_DAILY : ℚ := 8
def MAX_PTO_HOURS_PER_DAY : ℚ := 8
def OVERTIME_MULTIPLIER : ℚ := 3/2
def SATURDAY_MULTIPLIER : ℚ := 3/2
def MEDICAL_DEDUCTION_SINGLE : ℚ := 50
def MEDICAL_DEDUCTION_FAMILY : ℚ := 100
def DEPENDENT_STIPEND_PER_DEPENDENT : ℚ := 45
def STATE_TAX_RATE_IN : ℚ := 315/10000
def FEDERAL_TAX_RATE_EMPLOYEE : ℚ := 765/10000
def SOCIAL_SECURITY_RATE_EMPLOYEE : ℚ := 62/1000
def MEDICARE_RATE_EMPLOYEE : ℚ := 145/10000
def FEDERAL_TAX_RATE_EMPLOYER : ℚ := 765/10000
def SOCIAL_SECURITY_RATE_EMPLOYER : ℚ := 62/1000
def MEDICARE_RATE_EMPLOYER : ℚ := 145/10000
def EMPLOYEE_STATUS_ACTIVE : String := "Active"
def MEDICAL_TYPE_FAMILY : String := "Family"
def SALARY_TYPE_SALARY : String := "Salary"
def SALARY_TYPE_HOURLY : String := "Hourly"

def DAYS_OF_WEEK : List String :=
  ["Monday", "Tuesday", "Wednesday", "Thursday", "Friday", "Saturday", "Sunday"]

/-! ## TimeEntry (src/models/time_entry.py)

Dates are day numbers with day 0 a Monday; `get_day_of_week` is the
lookup `DAYS_OF_WEEK[weekday]` of the source, with `weekday = d % 7`. -/

structure TimeEntry where
  employee_id : String
  entry_date : ℕ
  day_of_week : String
  payroll_id : Option ℕ := none
  hours_worked : ℚ := 0
  pto_hours : ℚ := 0
  is_saturday : Bool := false
  notes : Option String := none
deriving Repr, DecidableEq

def TimeEntry.total_hours (e : TimeEntry) : ℚ :=
  e.hours_worked + e.pto_hours

def TimeEntry.overtime_hours (e : TimeEntry) : ℚ :=
  if e.hours_worked > OVERTIME_THRESHOLD_DAILY then
    e.hours_worked - OVERTIME_THRESHOLD_DAILY
  else 0

def TimeEntry.regular_hours (e : TimeEntry) : ℚ :=
  min e.hours_worked OVERTIME_THRESHOLD_DAILY

/-- `TimeEntry.get_day_of_week`: day name from the day number. -/
def get_day_of_week (d : ℕ) : String :=
  DAYS_OF_WEEK.getD (d % 7) ""

/-- The employee-id presence test of `TimeEntry.validate`: Python's
`not employee_id or not employee_id.strip()` is true exactly when the
string is empty or all whitespace. -/
def isBlank (s : String) : Bool :=
  s.data.all Char.isWhitespace

/-- `TimeEntry.validate`, returning the list of error messages.  The
`entry_date` format check of the source cannot fire in this model: every
day number corresponds to a well-formed `YYYY-MM-DD` string. -/
def TimeEntry.validate (e : TimeEntry) : List String :=
  (if isBlank e.employee_id then ["Employee ID is required"] else []) ++
  (if e.day_of_week ∈ DAYS_OF_WEEK then [] else ["Day of week must be one of the seven day names"]) ++
  (if e.hours_worked < 0 then ["Hours worked cannot be negative"] else []) ++
  (if e.hours_worked > MAX_HOURS_PER_DAY then ["Hours worked cannot exceed 24"] else []) ++
  (if e.pto_hours < 0 then ["PTO hours cannot be negative"] else []) ++
  (if e.pto_hours > MAX_PTO_HOURS_PER_DAY then ["PTO hours cannot exceed 8"] else []) ++
  (if e.total_hours > MAX_HOURS_PER_DAY then ["Total hours cannot exceed 24"] else []) ++
  (if e.day_of_week = "Saturday" ∧ e.is_saturday ≠ true then
    ["is_saturday must be 1 for Saturday entries"] else [])

def TimeEntry.is_valid (e : TimeEntry) : Bool :=
  e.validate.length = 0

/-- `TimeEntry.create_entry`: factory deriving day-of-week and the
Saturday flag from the date. -/
def TimeEntry.create_entry (employee_id : String) (entry_date : ℕ)
    (hours_worked pto_hours : ℚ) (notes : Option String) : TimeEntry :=
  let day_of_week := get_day_of_week entry_date
  { employee_id := employee_id
    entry_date := entry_date
    day_of_week := day_of_week
    hours_worked := hours_worked
    pto_hours := pto_hours
    is_saturday := day_of_week = "Saturday"
    notes := notes }

/-- `TimeEntry.assign_to_payroll`: the guard of the bulk `UPDATE`
statement — employee matches, date inside the inclusive range, and no
period assigned yet. -/
def assignMatches (employee_id : String) (start_date end_date : ℕ)
    (e : TimeEntry) : Bool :=
  e.employee_id = employee_id ∧ start_date ≤ e.entry_date ∧
    e.entry_date ≤ end_date ∧ e.payroll_id = none

/-- `TimeEntry.assign_to_payroll` over the table of entries: stamps
`payroll_id` on every matching row and returns the new table together
with the number of rows updated. -/
def assign_to_payroll (entries : List TimeEntry) (employee_id : String)
    (start_date end_date : ℕ) (payroll_id : ℕ) : List TimeEntry × ℕ :=
  (entries.map fun e =>
      if assignMatches employee_id start_date end_date e then
        { e with payroll_id := some payroll_id }
      else e,
   entries.countP fun e => assignMatches employee_id start_date end_date e)

/-! ## PayrollPeriod (src/models/payroll.py) -/

structure PayrollPeriod where
  payroll_id : Option ℕ := none
  period_start_date : ℕ
  period_end_date : ℕ
  processed_date : Option ℕ := none
  is_locked : Bool := false
  processed_by : Option String := none
deriving Repr, DecidableEq

/-- `PayrollPeriod.lock`: unconditionally sets the lock flag, the
processed timestamp and the approver, then saves. -/
def PayrollPeriod.lock (p : PayrollPeriod) (processed_by : String)
    (now : ℕ) : PayrollPeriod :=
  { p with is_locked := true
           processed_date := some now
           processed_by := some processed_by }

/-! ## PayrollCalculator (src/models/payroll.py) -/

structure PayData where
  regular_hours : ℚ
  overtime_hours : ℚ
  saturday_hours : ℚ
  pto_hours : ℚ
  total_hours : ℚ
  base_pay : ℚ
  overtime_pay : ℚ
  saturday_pay : ℚ
  gross_pay : ℚ
deriving Repr, DecidableEq

/-- Accumulator of the entry loop in `calculate_hourly_pay`:
running regular / overtime / saturday / PTO hour totals. -/
structure HourAcc where
  regular : ℚ
  overtime : ℚ
  saturday : ℚ
  pto : ℚ
deriving Repr, DecidableEq

/-- One iteration of the `calculate_hourly_pay` loop: accumulate PTO
always; Saturday hours go whole to the saturday bucket, other days are
split by the daily regular/overtime rule. -/
def hourStep (acc : HourAcc) (e : TimeEntry) : HourAcc :=
  if e.is_saturday then
    { acc with pto := acc.pto + e.pto_hours
               saturday := acc.saturday + e.hours_worked }
  else
    { acc with pto := acc.pto + e.pto_hours
               regular := acc.regular + e.regular_hours
               overtime := acc.overtime + e.overtime_hours }

/-- `PayrollCalculator.calculate_hourly_pay`. -/
def calculate_hourly_pay (time_entries : List TimeEntry)
    (hourly_rate : ℚ) : PayData :=
  let acc := time_entries.foldl hourStep ⟨0, 0, 0, 0⟩
  let total_hours := acc.regular + acc.overtime + acc.saturday + acc.pto
  let base_pay := (acc.regular + acc.pto) * hourly_rate
  let overtime_pay := acc.overtime * hourly_rate * OVERTIME_MULTIPLIER
  let saturday_pay := acc.saturday * hourly_rate * SATURDAY_MULTIPLIER
  let gross_pay := base_pay + overtime_pay + saturday_pay
  { regular_hours := acc.regular
    overtime_hours := acc.overtime
    saturday_hours := acc.saturday
    pto_hours := acc.pto
    total_hours := total_hours
    base_pay := roundTo 2 base_pay
    overtime_pay := roundTo 2 overtime_pay
    saturday_pay := roundTo 2 saturday_pay
    gross_pay := roundTo 2 gross_pay }

/-- `PayrollCalculator.calculate_salary_pay`. -/
def calculate_salary_pay (annual_salary : ℚ) : PayData :=
  let weekly_pay := annual_salary / WEEKS_PER_YEAR
  { regular_hours := STANDARD_WORK_HOURS_PER_WEEK
    overtime_hours := 0
    saturday_hours := 0
    pto_hours := 0
    total_hours := STANDARD_WORK_HOURS_PER_WEEK
    base_pay := roundTo 2 weekly_pay
    overtime_pay := 0
    saturday_pay := 0
    gross_pay := roundTo 2 weekly_pay }

/-- `PayrollCalculator.calculate_medical_deduction`. -/
def calculate_medical_deduction (medical_type : String) : ℚ :=
  if medical_type = MEDICAL_TYPE_FAMILY then MEDICAL_DEDUCTION_FAMILY
  else MEDICAL_DEDUCTION_SINGLE

/-- `PayrollCalculator.calculate_dependent_stipend`. -/
def calculate_dependent_stipend (num_dependents : ℕ) : ℚ :=
  num_dependents * DEPENDENT_STIPEND_PER_DEPENDENT

structure TaxData where
  state_tax : ℚ
  federal_tax_employee : ℚ
  social_security_employee : ℚ
  medicare_employee : ℚ
  total_employee_taxes : ℚ
  federal_tax_employer : ℚ
  social_security_employer : ℚ
  medicare_employer : ℚ
  total_employer_taxes : ℚ
deriving Repr, DecidableEq

/-- `PayrollCalculator.calculate_taxes`. -/
def calculate_taxes (taxable_income : ℚ) : TaxData :=
  let state_tax := roundTo 4 (taxable_income * STATE_TAX_RATE_IN)
  let federal_tax_employee :=
    roundTo 4 (taxable_income * FEDERAL_TAX_RATE_EMPLOYEE)
  let social_security_employee :=
    roundTo 4 (taxable_income * SOCIAL_SECURITY_RATE_EMPLOYEE)
  let medicare_employee :=
    roundTo 4 (taxable_income * MEDICARE_RATE_EMPLOYEE)
  let total_employee_taxes :=
    roundTo 4 (state_tax + federal_tax_employee +
      social_security_employee + medicare_employee)
  let federal_tax_employer :=
    roundTo 4 (taxable_income * FEDERAL_TAX_RATE_EMPLOYER)
  let social_security_employer :=
    roundTo 4 (taxable_income * SOCIAL_SECURITY_RATE_EMPLOYER)
  let medicare_employer :=
    roundTo 4 (taxable_income * MEDICARE_RATE_EMPLOYER)
  let total_employer_taxes :=
    roundTo 4 (federal_tax_employer + social_security_employer +
      medicare_employer)
  { state_tax := state_tax
    federal_tax_employee := federal_tax_employee
    social_security_employee := social_security_employee
    medicare_employee := medicare_employee
    total_employee_taxes := total_employee_taxes
    federal_tax_employer := federal_tax_employer
    social_security_employer := social_security_employer
    medicare_employer := medicare_employer
    total_employer_taxes := total_employer_taxes }

structure NetData where
  taxable_income : ℚ
  net_pay : ℚ
deriving Repr, DecidableEq

/-- `PayrollCalculator.calculate_net_pay`. -/
def calculate_net_pay (gross_pay medical_deduction
    total_employee_taxes : ℚ) : NetData :=
  let taxable_income := gross_pay - medical_deduction
  let net_pay := taxable_income - total_employee_taxes
  { taxable_income := round_currency taxable_income
    net_pay := round_currency net_pay }

/-! ## Employee (src/models/employee.py) — the compensation fields the
payroll engine reads. -/

structure Employee where
  employee_id : String
  status : String := EMPLOYEE_STATUS_ACTIVE
  salary_type : Option String := none
  base_salary : Option ℚ := none
  hourly_rate : Option ℚ := none
  medical_type : Option String := none
  num_dependents : ℕ := 0
deriving Repr, DecidableEq

/-! ## PayrollDetail (src/models/payroll.py) -/

structure PayrollDetail where
  payroll_detail_id : Option ℕ := none
  payroll_id : ℕ
  employee_id : String
  regular_hours : ℚ := 0
  overtime_hours : ℚ := 0
  saturday_hours : ℚ := 0
  pto_hours : ℚ := 0
  total_hours : ℚ := 0
  base_pay : ℚ := 0
  overtime_pay : ℚ := 0
  saturday_pay : ℚ := 0
  dependent_stipend : ℚ := 0
  gross_pay : ℚ := 0
  medical_deduction : ℚ := 0
  taxable_income : ℚ := 0
  state_tax : ℚ := 0
  federal_tax_employee : ℚ := 0
  social_security_employee : ℚ := 0
  medicare_employee : ℚ := 0
  total_employee_taxes : ℚ := 0
  net_pay : ℚ := 0
  federal_tax_employer : ℚ := 0
  social_security_employer : ℚ := 0
  medicare_employer : ℚ := 0
  total_employer_taxes : ℚ := 0

/-! ## PayrollController.submit_time_entry
(src/controllers/payroll_controller.py)

The function receives the database reads already resolved — the employee
looked up by id, the existing entry for (employee, date), and the period
table as a lookup function — and returns an explicit result in place of
the `(success, message, entry)` tuple; the `created` and `updated`
constructors carry the row that the source writes, a `failed` result
writes nothing (the source returns before any `save`). -/

inductive SubmitError where
  | employeeNotFound
  | employeeNotActive
  | lockedPeriod
  | validationFailed (errors : List String)
deriving Repr, DecidableEq

inductive SubmitResult where
  | created (e : TimeEntry)
  | updated (e : TimeEntry)
  | failed (err : SubmitError)
deriving Repr, DecidableEq

/-- The locked-period guard of the update branch: the entry has a period
assigned, the period row exists, and its lock flag is set. -/
def lockedFor (period_of : ℕ → Option PayrollPeriod) (e : TimeEntry) : Bool :=
  match e.payroll_id with
  | some pid =>
    match period_of pid with
    | some p => p.is_locked
    | none => false
  | none => false

/-- The in-place mutation of the update branch of `submit_time_entry`:
overwrite the mutable fields (hours, PTO, notes) of a stored entry. -/
def TimeEntry.withSubmitted (e : TimeEntry) (hours_worked pto_hours : ℚ)
    (notes : Option String) : TimeEntry :=
  { e with hours_worked := hours_worked
           pto_hours := pto_hours
           notes := notes }

def submit_time_entry (employee : Option Employee) (existing : Option TimeEntry)
    (period_of : ℕ → Option PayrollPeriod) (employee_id : String)
    (entry_date : ℕ) (hours_worked pto_hours : ℚ)
    (notes : Option String) : SubmitResult :=
  match employee with
  | none => .failed .employeeNotFound
  | some emp =>
    if emp.status ≠ EMPLOYEE_STATUS_ACTIVE then .failed .employeeNotActive
    else
      match existing with
      | some ex =>
        if lockedFor period_of ex then .failed .lockedPeriod
        else
          let ex2 := ex.withSubmitted hours_worked pto_hours notes
          if ex2.validate ≠ [] then .failed (.validationFailed ex2.validate)
          else .updated ex2
      | none =>
        let e := TimeEntry.create_entry employee_id entry_date
          hours_worked pto_hours notes
        if e.validate ≠ [] then .failed (.validationFailed e.validate)
        else .created e

/-! ## PayrollController.calculate_weekly_pay -/

/-- The pay-type dispatch of `calculate_weekly_pay` steps 5: salaried
employees get `calculate_salary_pay`, hourly ones
`calculate_hourly_pay`; a missing rate or an unknown type is an error. -/
def pay_data_for (emp : Employee) (entries : List TimeEntry) :
    Except String PayData :=
  if emp.salary_type = some SALARY_TYPE_SALARY then
    match emp.base_salary with
    | none => .error "Salaried employee has no base salary set"
    | some s => .ok (calculate_salary_pay s)
  else if emp.salary_type = some SALARY_TYPE_HOURLY then
    match emp.hourly_rate with
    | none => .error "Hourly employee has no hourly rate set"
    | some r => .ok (calculate_hourly_pay entries r)
  else .error "Unknown salary type"

/-- Result of `calculate_weekly_pay`.  `lockedExisting` is the
short-circuit return of the stored detail with nothing written;
`saved` carries the detail row that is inserted or overwritten and the
period id that the time entries are then bulk-assigned to. -/
inductive CalcResult where
  | employeeNotFound
  | noPeriodId
  | lockedExisting (d : PayrollDetail)
  | calcError (msg : String)
  | saved (d : PayrollDetail) (assigned_payroll_id : ℕ)

/-- Steps 5-11 of `calculate_weekly_pay`: dispatch on pay type, add the
dependent stipend, take the medical deduction, compute taxes and net pay
and build the detail row to save (over the existing row when there is
one — full replace, the source overwrites every calculated field). -/
def calculate_and_save (emp : Employee) (pid : ℕ)
    (existing : Option PayrollDetail) (entries : List TimeEntry)
    (employee_id : String) : CalcResult :=
  match pay_data_for emp entries with
  | .error m => .calcError m
  | .ok pay_data =>
    let dependent_stipend :=
      calculate_dependent_stipend emp.num_dependents
    let medical_deduction :=
      calculate_medical_deduction (emp.medical_type.getD "Single")
    let gross_pay := pay_data.gross_pay + dependent_stipend
    let taxable_income := gross_pay - medical_deduction
    let tax_data := calculate_taxes taxable_income
    let net_data := calculate_net_pay gross_pay medical_deduction
      tax_data.total_employee_taxes
    let base : PayrollDetail :=
      match existing with
      | some d => d
      | none => { payroll_id := pid, employee_id := employee_id }
    let detail : PayrollDetail :=
      { base with
        regular_hours := pay_data.regular_hours
        overtime_hours := pay_data.overtime_hours
        saturday_hours := pay_data.saturday_hours
        pto_hours := pay_data.pto_hours
        total_hours := pay_data.total_hours
        base_pay := pay_data.base_pay
        overtime_pay := pay_data.overtime_pay
        saturday_pay := pay_data.saturday_pay
        gross_pay := gross_pay
        medical_deduction := medical_deduction
        dependent_stipend := dependent_stipend
        taxable_income := taxable_income
        state_tax := tax_data.state_tax
        federal_tax_employee := tax_data.federal_tax_employee
        social_security_employee := tax_data.social_security_employee
        medicare_employee := tax_data.medicare_employee
        total_employee_taxes := tax_data.total_employee_taxes
        net_pay := net_data.net_pay
        federal_tax_employer := tax_data.federal_tax_employer
        social_security_employer := tax_data.social_security_employer
        medicare_employer := tax_data.medicare_employer
        total_employer_taxes := tax_data.total_employer_taxes }
    .saved detail pid

/-- `PayrollController.calculate_weekly_pay`, with the database reads
resolved: the employee looked up by id, the period returned by
`get_or_create`, the existing detail for (period, employee), and the
employee's time entries in [start, end].  The short-circuit return of
the stored detail requires both an existing detail and a locked
period. -/
def calculate_weekly_pay (employee : Option Employee)
    (period : PayrollPeriod) (existing : Option PayrollDetail)
    (entries : List TimeEntry) (employee_id : String) : CalcResult :=
  match employee with
  | none => .employeeNotFound
  | some emp =>
    match period.payroll_id with
    | none => .noPeriodId
    | some pid =>
      match existing with
      | some d =>
        if period.is_locked then .lockedExisting d
        else calculate_and_save emp pid (some d) entries employee_id
      | none => calculate_and_save emp pid none entries employee_id

/-- Project the saved or short-circuited detail out of a result. -/
def CalcResult.detail? : CalcResult → Option PayrollDetail
  | .lockedExisting d => some d
  | .saved d _ => some d
  | _ => none

/-- True exactly on results whose detail row was written. -/
def CalcResult.isSaved : CalcResult → Bool
  | .saved _ _ => true
  | _ => false

/-! ## PayrollController.approve_payroll -/

inductive ApproveResult where
  | periodNotFound
  | alreadyLocked
  | approved (p : PayrollPeriod)
deriving DecidableEq

/-- `PayrollController.approve_payroll`, with the period looked up by id
already resolved.  The `alreadyLocked` failure happens before any
mutation; `approved` carries the locked row that is saved. -/
def approve_payroll (period : Option PayrollPeriod) (approved_by : String)
    (now : ℕ) : ApproveResult :=
  match period with
  | none => .periodNotFound
  | some p =>
    if p.is_locked then .alreadyLocked
    else .approved (p.lock approved_by now)

/-! ## Concrete sample rows used by witnesses and counterexamples -/

def w6_emp : Employee :=
  { employee_id := "E006", salary_type := some "Salary",
    base_salary := some 78000, medical_type := some "Single",
    num_dependents := 0 }

def w6_period : PayrollPeriod :=
  { payroll_id := some 1, period_start_date := 0, period_end_date := 6 }

/-- The detail row produced for `w6_emp` over `w6_period`
(the salaried $78,000 / Single / 0-dependents scenario of the spec). -/
def w6_detail : PayrollDetail :=
  { payroll_detail_id := none, payroll_id := 1, employee_id := "E006",
    regular_hours := 40, overtime_hours := 0, saturday_hours := 0,
    pto_hours := 0, total_hours := 40,
    base_pay := 1500, overtime_pay := 0, saturday_pay := 0,
    dependent_stipend := 0, gross_pay := 1500,
    medical_deduction := 50, taxable_income := 1450,
    state_tax := 45675/1000, federal_tax_employee := 110925/1000,
    social_security_employee := 899/10, medicare_employee := 21025/1000,
    total_employee_taxes := 267525/1000, net_pay := 118248/100,
    federal_tax_employer := 110925/1000, social_security_employer := 899/10,
    medicare_employer := 21025/1000, total_employer_taxes := 22185/100 }

def cx1_emp : Employee :=
  { employee_id := "E001", salary_type := some "Salary",
    base_salary := some 52000 }

def cx1_period : PayrollPeriod :=
  { payroll_id := some 7, period_start_date := 0, period_end_date := 6,
    is_locked := true }

def w1_detail : PayrollDetail := { payroll_id := 7, employee_id := "E001" }

def cx3_emp : Employee :=
  { employee_id := "E007", salary_type := some "Hourly",
    hourly_rate := some (1/100), medical_type := some "Single",
    num_dependents := 0 }

def cx3_mon : TimeEntry :=
  { employee_id := "E007", entry_date := 0, day_of_week := "Monday",
    hours_worked := 3/10 }

def cx3_sat : TimeEntry :=
  { employee_id := "E007", entry_date := 5, day_of_week := "Saturday",
    hours_worked := 1/5, is_saturday := true }

def w2_mon : TimeEntry :=
  { employee_id := "E002", entry_date := 0, day_of_week := "Monday",
    hours_worked := 10 }

def w2_sat : TimeEntry :=
  { employee_id := "E002", entry_date := 5, day_of_week := "Saturday",
    hours_worked := 5, is_saturday := true }

def w7_open : PayrollPeriod :=
  { payroll_id := some 3, period_start_date := 7, period_end_date := 13 }

def w7_locked : PayrollPeriod :=
  { payroll_id := some 4, period_start_date := 14, period_end_date := 20,
    is_locked := true }

def cx8_emp : Employee := { employee_id := "E001" }

/-- A stored Monday entry whose Saturday flag is wrongly set: it
violates the §3 invariant that the weekend flag is true exactly on
Saturdays. -/
def cx8_entry : TimeEntry :=
  { employee_id := "E001", entry_date := 0, day_of_week := "Monday",
    hours_worked := 4, is_saturday := true }

def w8_period : PayrollPeriod :=
  { payroll_id := some 2, period_start_date := 0, period_end_date := 6,
    is_locked := true }

def w8_entry : TimeEntry :=
  { employee_id := "E001", entry_date := 2, day_of_week := "Wednesday",
    payroll_id := some 2, hours_worked := 8 }

def w9a : TimeEntry :=
  { employee_id := "E001", entry_date := 1, day_of_week := "Tuesday",
    hours_worked := 8 }

def w9b : TimeEntry :=
  { employee_id := "E001", entry_date := 2, day_of_week := "Wednesday",
    payroll_id := some 9, hours_worked := 8 }

def w10_emp : Employee := { employee_id := "E010", status := "Terminated" }

/-! ## Rounding lemmas -/

theorem rhe_intCast (z : ℤ) : rhe (z : ℚ) = z := by
  simp [rhe, Int.floor_intCast]

theorem abs_rhe_sub_le (q : ℚ) : |(rhe q : ℚ) - q| ≤ 1/2 := by
  have h0 : ((⌊q⌋ : ℚ)) ≤ q := Int.floor_le q
  have h1 : q < ⌊q⌋ + 1 := Int.lt_floor_add_one q
  unfold rhe
  by_cases hc : q - ⌊q⌋ < 1/2
  · rw [if_pos hc, abs_sub_comm, abs_of_nonneg (by linarith)]
    linarith
  · rw [if_neg hc]
    push_neg at hc
    by_cases hc2 : 1/2 < q - ⌊q⌋
    · rw [if_pos hc2]
      push_cast
      rw [abs_of_nonneg (by linarith)]
      linarith
    · rw [if_neg hc2]
      push_neg at hc2
      have heq : q - ⌊q⌋ = 1/2 := le_antisymm hc2 hc
      by_cases he : (⌊q⌋ : ℤ) % 2 = 0
      · rw [if_pos he, abs_sub_comm, abs_of_nonneg (by linarith)]
        linarith
      · rw [if_neg he]
        push_cast
        rw [abs_of_nonneg (by linarith)]
        linarith

theorem roundTo_eq_self (p : ℕ) (q : ℚ) (z : ℤ)
    (h : q * 10 ^ p = (z : ℚ)) : roundTo p q = q := by
  have hp : (0 : ℚ) < 10 ^ p := by positivity
  rw [roundTo, h, rhe_intCast, ← h]
  field_simp

theorem abs_roundTo_sub_le (p : ℕ) (q : ℚ) :
    |roundTo p q - q| ≤ 1 / (2 * 10 ^ p) := by
  have hp : (0 : ℚ) < 10 ^ p := by positivity
  have h := abs_rhe_sub_le (q * 10 ^ p)
  have hrw : roundTo p q - q = ((rhe (q * 10 ^ p) : ℚ) - q * 10 ^ p) / 10 ^ p := by
    rw [roundTo]
    field_simp
    ring
  rw [hrw, abs_div, abs_of_pos hp, div_le_div_iff₀ hp (by positivity)]
  have h2 := mul_le_mul_of_nonneg_right h
    (le_of_lt (show (0 : ℚ) < 2 * 10 ^ p by positivity))
  linarith [h2]

theorem roundTo_mul_pow (p : ℕ) (q : ℚ) :
    roundTo p q * 10 ^ p = (rhe (q * 10 ^ p) : ℚ) := by
  have hp : (0 : ℚ) < 10 ^ p := by positivity
  rw [roundTo, div_mul_cancel₀ _ (ne_of_gt hp)]

theorem rhu_intCast (z : ℤ) : rhu (z : ℚ) = z := by
  unfold rhu
  by_cases h : (0 : ℚ) ≤ (z : ℚ)
  · rw [if_pos h, Int.floor_int_add]
    norm_num
  · rw [if_neg h]
    rw [show (-(z : ℚ) + 1/2) = ((-z : ℤ) : ℚ) + (1/2 : ℚ) by push_cast; ring,
      Int.floor_int_add]
    norm_num

theorem round_currency_eq_self (q : ℚ) (z : ℤ)
    (h : q * 100 = (z : ℚ)) : round_currency q = q := by
  rw [round_currency, h, rhu_intCast, ← h]
  field_simp

section

set_option allowUnsafeReducibility true
attribute [local semireducible] Rat.add Rat.mul Rat.inv Rat.sub

/-! ## C7 — period locking -/

/-- C7: locking a pay period is one-way and no-op-rejecting: the
approval of an already-locked period fails before any mutation, and the
approval of an open period sets the lock flag, processed timestamp and
approver while keeping the start and end dates. -/
theorem approve_payroll_one_way (p : PayrollPeriod) (approver : String)
    (now : ℕ) :
    (p.is_locked = true →
      approve_payroll (some p) approver now = .alreadyLocked) ∧
    (p.is_locked = false →
      approve_payroll (some p) approver now = .approved (p.lock approver now) ∧
      (p.lock approver now).is_locked = true ∧
      (p.lock approver now).processed_date = some now ∧
      (p.lock approver now).processed_by = some approver ∧
      (p.lock approver now).period_start_date = p.period_start_date ∧
      (p.lock approver now).period_end_date = p.period_end_date) := by
  constructor
  · intro h
    simp [approve_payroll, h]
  · intro h
    simp [approve_payroll, h, PayrollPeriod.lock]

/-- Witness for C7 at two concrete periods. -/
theorem approve_payroll_one_way_witness :
    approve_payroll (some w7_locked) "admin" 5 = .alreadyLocked ∧
    approve_payroll (some w7_open) "admin" 5 =
      .approved (w7_open.lock "admin" 5) := by
  exact ⟨(approve_payroll_one_way w7_locked "admin" 5).1 rfl,
    ((approve_payroll_one_way w7_open "admin" 5).2 rfl).1⟩

/-! ## C10 — submission requires an active employee -/

/-- C10: whenever the referenced employee exists but is not Active,
`submit_time_entry` fails with the not-active error before any entry is
created or updated, whatever the date and hour arguments are. -/
theorem submit_time_entry_requires_active (emp : Employee)
    (existing : Option TimeEntry) (period_of : ℕ → Option PayrollPeriod)
    (eid : String) (dt : ℕ) (hw pto : ℚ) (notes : Option String)
    (h : emp.status ≠ EMPLOYEE_STATUS_ACTIVE) :
    submit_time_entry (some emp) existing period_of eid dt hw pto notes =
      .failed .employeeNotActive := by
  simp [submit_time_entry, h]

/-- Witness for C10: a terminated employee with in-range hours. -/
theorem submit_time_entry_requires_active_witness :
    submit_time_entry (some w10_emp) none (fun _ => none) "E010" 0 8 0 none =
      .failed .employeeNotActive :=
  submit_time_entry_requires_active w10_emp none (fun _ => none) "E010" 0 8 0
    none (by decide)

/-! ## C4 — flat tax rates -/

/-- C4 (amended): `calculate_taxes` applies the six flat rates to the
taxable income, rounds every individual amount to 4 decimal places, and
the totals are the rounded 4-decimal sums of the components of each
side — FOUR components on the employee side (state, federal, social
security, medicare) and three on the employer side. -/
theorem calculate_taxes_flat_rates (ti : ℚ) :
    (calculate_taxes ti).state_tax = roundTo 4 (ti * (315/10000)) ∧
    (calculate_taxes ti).federal_tax_employee = roundTo 4 (ti * (765/10000)) ∧
    (calculate_taxes ti).social_security_employee = roundTo 4 (ti * (62/1000)) ∧
    (calculate_taxes ti).medicare_employee = roundTo 4 (ti * (145/10000)) ∧
    (calculate_taxes ti).federal_tax_employer = roundTo 4 (ti * (765/10000)) ∧
    (calculate_taxes ti).social_security_employer = roundTo 4 (ti * (62/1000)) ∧
    (calculate_taxes ti).medicare_employer = roundTo 4 (ti * (145/10000)) ∧
    (calculate_taxes ti).total_employee_taxes =
      roundTo 4 ((calculate_taxes ti).state_tax +
        (calculate_taxes ti).federal_tax_employee +
        (calculate_taxes ti).social_security_employee +
        (calculate_taxes ti).medicare_employee) ∧
    (calculate_taxes ti).total_employer_taxes =
      roundTo 4 ((calculate_taxes ti).federal_tax_employer +
        (calculate_taxes ti).social_security_employer +
        (calculate_taxes ti).medicare_employer) :=
  ⟨rfl, rfl, rfl, rfl, rfl, rfl, rfl, rfl, rfl⟩

/-- C4 counterexample: at taxable income 100 the employee-side total is
18.45, the rounded sum of its FOUR components, and differs from the
rounded 4-decimal sum of every choice of three of them. -/
theorem calculate_taxes_employee_total_has_four_components :
    (calculate_taxes 100).total_employee_taxes = 1845/100 ∧
    (calculate_taxes 100).state_tax = 315/100 ∧
    (calculate_taxes 100).federal_tax_employee = 765/100 ∧
    (calculate_taxes 100).social_security_employee = 62/10 ∧
    (calculate_taxes 100).medicare_employee = 145/100 ∧
    (calculate_taxes 100).total_employee_taxes ≠
      roundTo 4 ((calculate_taxes 100).federal_tax_employee +
        (calculate_taxes 100).social_security_employee +
        (calculate_taxes 100).medicare_employee) ∧
    (calculate_taxes 100).total_employee_taxes ≠
      roundTo 4 ((calculate_taxes 100).state_tax +
        (calculate_taxes 100).social_security_employee +
        (calculate_taxes 100).medicare_employee) ∧
    (calculate_taxes 100).total_employee_taxes ≠
      roundTo 4 ((calculate_taxes 100).state_tax +
        (calculate_taxes 100).federal_tax_employee +
        (calculate_taxes 100).medicare_employee) ∧
    (calculate_taxes 100).total_employee_taxes ≠
      roundTo 4 ((calculate_taxes 100).state_tax +
        (calculate_taxes 100).federal_tax_employee +
        (calculate_taxes 100).social_security_employee) := by
  decide

/-! ## C9 — idempotent assignment of entries to a period -/

theorem assignMatches_iff (eid : String) (s t : ℕ) (e : TimeEntry) :
    assignMatches eid s t e = true ↔
      (e.employee_id = eid ∧ s ≤ e.entry_date ∧ e.entry_date ≤ t ∧
        e.payroll_id = none) := by
  simp [assignMatches]

/-- C9: `assign_to_payroll` stamps the period id exactly onto the rows
matched by its guard (same employee, date in the inclusive range, no
period assigned), leaves every other row — in particular every row
already assigned — unchanged, and a second run over the same arguments
changes nothing and reports zero updated rows. -/
theorem assign_to_payroll_idempotent (entries : List TimeEntry)
    (eid : String) (s t pid : ℕ) :
    (∀ (i : ℕ) (e : TimeEntry), entries[i]? = some e →
      (assignMatches eid s t e = true →
        (assign_to_payroll entries eid s t pid).1[i]? =
          some { e with payroll_id := some pid }) ∧
      (assignMatches eid s t e = false →
        (assign_to_payroll entries eid s t pid).1[i]? = some e) ∧
      (e.payroll_id ≠ none →
        (assign_to_payroll entries eid s t pid).1[i]? = some e)) ∧
    assign_to_payroll (assign_to_payroll entries eid s t pid).1 eid s t pid =
      ((assign_to_payroll entries eid s t pid).1, 0) := by
  have hstep : ∀ e : TimeEntry,
      assignMatches eid s t
        (if assignMatches eid s t e then { e with payroll_id := some pid }
         else e) = false := by
    intro e
    by_cases hm : assignMatches eid s t e = true
    · rw [if_pos hm, Bool.eq_false_iff]
      intro hmm
      rw [assignMatches_iff] at hmm
      simp at hmm
    · rw [Bool.not_eq_true] at hm
      rw [if_neg (by simp [hm])]
      exact hm
  constructor
  · intro i e he
    refine ⟨?_, ?_, ?_⟩
    · intro hm
      simp [assign_to_payroll, List.getElem?_map, he, hm]
    · intro hm
      simp [assign_to_payroll, List.getElem?_map, he, hm]
    · intro hp
      have hm : assignMatches eid s t e = false := by
        rw [Bool.eq_false_iff]
        intro hmm
        rw [assignMatches_iff] at hmm
        exact hp hmm.2.2.2
      simp [assign_to_payroll, List.getElem?_map, he, hm]
  · unfold assign_to_payroll
    simp only [Prod.mk.injEq]
    constructor
    · rw [List.map_map]
      apply List.map_congr_left
      intro e _
      simp [Function.comp, hstep e]
    · rw [List.countP_map]
      apply List.countP_eq_zero.mpr
      intro e _
      simp [Function.comp, hstep e]

/-- Witness for C9 on a two-row table: the unassigned in-range row gets
stamped, the already-assigned row survives unchanged, and the second run
is a no-op reporting zero updates. -/
theorem assign_to_payroll_idempotent_witness :
    (assign_to_payroll [w9a, w9b] "E001" 0 6 3).1[0]? =
      some { w9a with payroll_id := some 3 } ∧
    (assign_to_payroll [w9a, w9b] "E001" 0 6 3).1[1]? = some w9b ∧
    assign_to_payroll (assign_to_payroll [w9a, w9b] "E001" 0 6 3).1
      "E001" 0 6 3 = ((assign_to_payroll [w9a, w9b] "E001" 0 6 3).1, 0) := by
  have h := assign_to_payroll_idempotent [w9a, w9b] "E001" 0 6 3
  exact ⟨(h.1 0 w9a (by decide)).1 (by decide),
    (h.1 1 w9b (by decide)).2.2 (by decide), h.2⟩

/-! ## C2 — hourly bucket split -/

theorem foldl_hourStep (entries : List TimeEntry) (a : HourAcc) :
    entries.foldl hourStep a =
      { regular := a.regular +
          ((entries.filter fun e => !e.is_saturday).map
            TimeEntry.regular_hours).sum
        overtime := a.overtime +
          ((entries.filter fun e => !e.is_saturday).map
            TimeEntry.overtime_hours).sum
        saturday := a.saturday +
          ((entries.filter fun e => e.is_saturday).map
            TimeEntry.hours_worked).sum
        pto := a.pto + (entries.map TimeEntry.pto_hours).sum } := by
  induction entries generalizing a with
  | nil => simp
  | cons e es ih =>
    cases hs : e.is_saturday with
    | false =>
      rw [List.foldl_cons, ih]
      simp [hourStep, hs, List.filter_cons, HourAcc.mk.injEq]
      refine ⟨by ring, by ring, by ring⟩
    | true =>
      rw [List.foldl_cons, ih]
      simp [hourStep, hs, List.filter_cons, HourAcc.mk.injEq]
      refine ⟨by ring, by ring⟩

/-- C2: `calculate_hourly_pay` sends every non-Saturday entry's
`min(hoursWorked, 8)` to the regular bucket and its `max(0, hours − 8)`
to the overtime bucket (daily rule, per entry), sends all hours of every
Saturday entry to the saturday bucket with no split, accumulates PTO
separately; per entry, hours ≤ 8 give zero overtime and regular = hours,
and hours > 8 give regular = 8 and overtime = hours − 8. -/
theorem calculate_hourly_pay_buckets (entries : List TimeEntry) (rate : ℚ) :
    (calculate_hourly_pay entries rate).regular_hours =
      ((entries.filter fun e => !e.is_saturday).map
        TimeEntry.regular_hours).sum ∧
    (calculate_hourly_pay entries rate).overtime_hours =
      ((entries.filter fun e => !e.is_saturday).map
        TimeEntry.overtime_hours).sum ∧
    (calculate_hourly_pay entries rate).saturday_hours =
      ((entries.filter fun e => e.is_saturday).map
        TimeEntry.hours_worked).sum ∧
    (calculate_hourly_pay entries rate).pto_hours =
      (entries.map TimeEntry.pto_hours).sum ∧
    (∀ e : TimeEntry, e.hours_worked ≤ 8 →
      e.overtime_hours = 0 ∧ e.regular_hours = e.hours_worked) ∧
    (∀ e : TimeEntry, 8 < e.hours_worked →
      e.regular_hours = 8 ∧ e.overtime_hours = e.hours_worked - 8) := by
  refine ⟨?_, ?_, ?_, ?_, ?_, ?_⟩
  · simp [calculate_hourly_pay, foldl_hourStep]
  · simp [calculate_hourly_pay, foldl_hourStep]
  · simp [calculate_hourly_pay, foldl_hourStep]
  · simp [calculate_hourly_pay, foldl_hourStep]
  · intro e h
    constructor
    · rw [TimeEntry.overtime_hours, OVERTIME_THRESHOLD_DAILY,
        if_neg (not_lt.mpr h)]
    · rw [TimeEntry.regular_hours, OVERTIME_THRESHOLD_DAILY, min_eq_left h]
  · intro e h
    constructor
    · rw [TimeEntry.regular_hours, OVERTIME_THRESHOLD_DAILY,
        min_eq_right (le_of_lt h)]
    · rw [TimeEntry.overtime_hours, OVERTIME_THRESHOLD_DAILY, if_pos h]

/-- Witness for C2: a 10-hour Monday splits 8 regular / 2 overtime, a
5-hour Saturday goes whole to the saturday bucket. -/
theorem calculate_hourly_pay_buckets_witness :
    (calculate_hourly_pay [w2_mon, w2_sat] 20).regular_hours = 8 ∧
    (calculate_hourly_pay [w2_mon, w2_sat] 20).overtime_hours = 2 ∧
    (calculate_hourly_pay [w2_mon, w2_sat] 20).saturday_hours = 5 ∧
    w2_mon.regular_hours = 8 ∧ w2_mon.overtime_hours = 2 := by
  have h := calculate_hourly_pay_buckets [w2_mon, w2_sat] 20
  have hmon := h.2.2.2.2.2 w2_mon (by decide)
  refine ⟨?_, ?_, ?_, hmon.1, ?_⟩
  · rw [h.1]; decide
  · rw [h.2.1]; decide
  · rw [h.2.2.1]; decide
  · rw [hmon.2]; decide

/-! ## C1 — locked-period short circuit -/

/-- C1 (amended): when the period is locked and a detail already exists
for the (period, employee) pair, `calculate_weekly_pay` returns the
existing detail unchanged and writes nothing; a detail is created or
overwritten only when the period is unlocked or no detail exists yet
for the pair. -/
theorem calculate_weekly_pay_lock (emp : Employee) (period : PayrollPeriod)
    (existing : Option PayrollDetail) (entries : List TimeEntry)
    (eid : String) (pid : ℕ) (hpid : period.payroll_id = some pid) :
    (period.is_locked = true → ∀ d, existing = some d →
      calculate_weekly_pay (some emp) period existing entries eid =
        .lockedExisting d) ∧
    (∀ d p2, calculate_weekly_pay (some emp) period existing entries eid =
        .saved d p2 →
      period.is_locked = false ∨ existing = none) := by
  constructor
  · intro hl d hd
    subst hd
    simp [calculate_weekly_pay, hpid, hl]
  · intro d p2 h
    rcases existing with _ | d0
    · exact Or.inr rfl
    · cases hl : period.is_locked with
      | false => exact Or.inl rfl
      | true =>
        exfalso
        simp [calculate_weekly_pay, hpid, hl] at h

/-- C1 counterexample: on a locked period with NO existing detail,
`calculate_weekly_pay` does not short-circuit — it computes and saves a
brand-new detail despite the lock, so a detail can be created while the
period is locked. -/
theorem calculate_weekly_pay_creates_despite_lock :
    cx1_period.is_locked = true ∧
    (calculate_weekly_pay (some cx1_emp) cx1_period none [] "E001").isSaved =
      true := by
  decide

/-- Witness for C1: a locked period with an existing detail returns that
detail unchanged. -/
theorem calculate_weekly_pay_lock_witness :
    calculate_weekly_pay (some cx1_emp) cx1_period (some w1_detail) []
      "E001" = .lockedExisting w1_detail := by
  have h := calculate_weekly_pay_lock cx1_emp cx1_period (some w1_detail) []
    "E001" 7 rfl
  exact h.1 rfl w1_detail rfl

/-! ## Inversion lemmas for the saved path of `calculate_weekly_pay` -/

theorem calculate_weekly_pay_saved (emp : Employee) (period : PayrollPeriod)
    (existing : Option PayrollDetail) (entries : List TimeEntry)
    (eid : String) (d : PayrollDetail) (p2 : ℕ)
    (h : calculate_weekly_pay (some emp) period existing entries eid =
      .saved d p2) :
    ∃ pid, period.payroll_id = some pid ∧
      calculate_and_save emp pid existing entries eid = .saved d p2 := by
  rcases hp : period.payroll_id with _ | pid
  · exfalso
    simp [calculate_weekly_pay, hp] at h
  · refine ⟨pid, rfl, ?_⟩
    rcases existing with _ | d0
    · simpa [calculate_weekly_pay, hp] using h
    · cases hl : period.is_locked with
      | false => simpa [calculate_weekly_pay, hp, hl] using h
      | true =>
        exfalso
        simp [calculate_weekly_pay, hp, hl] at h

theorem calculate_and_save_eq (emp : Employee) (pid : ℕ)
    (existing : Option PayrollDetail) (entries : List TimeEntry)
    (eid : String) (d : PayrollDetail) (p2 : ℕ)
    (h : calculate_and_save emp pid existing entries eid = .saved d p2) :
    ∃ pd, pay_data_for emp entries = .ok pd ∧
      d.base_pay = pd.base_pay ∧
      d.overtime_pay = pd.overtime_pay ∧
      d.saturday_pay = pd.saturday_pay ∧
      d.dependent_stipend = calculate_dependent_stipend emp.num_dependents ∧
      d.medical_deduction =
        calculate_medical_deduction (emp.medical_type.getD "Single") ∧
      d.gross_pay = pd.gross_pay + d.dependent_stipend ∧
      d.taxable_income = d.gross_pay - d.medical_deduction ∧
      d.total_employee_taxes =
        (calculate_taxes d.taxable_income).total_employee_taxes ∧
      d.net_pay = round_currency (d.taxable_income - d.total_employee_taxes) := by
  cases hpd : pay_data_for emp entries with
  | error m =>
    exfalso
    simp [calculate_and_save, hpd] at h
  | ok pd =>
    simp only [calculate_and_save, hpd] at h
    injection h with h1 h2
    subst h1
    exact ⟨pd, rfl, rfl, rfl, rfl, rfl, rfl, rfl, rfl, rfl, rfl⟩

theorem abs_round2_sum_sub (B O W : ℚ) :
    |roundTo 2 (B + O + W) - (roundTo 2 B + roundTo 2 O + roundTo 2 W)| ≤
      1/50 := by
  have h1 := abs_roundTo_sub_le 2 (B + O + W)
  have h2 := abs_roundTo_sub_le 2 B
  have h3 := abs_roundTo_sub_le 2 O
  have h4 := abs_roundTo_sub_le 2 W
  have he : (1 / (2 * 10 ^ 2) : ℚ) = 1/200 := by norm_num
  rw [he] at h1 h2 h3 h4
  rw [abs_le] at h1 h2 h3 h4 ⊢
  constructor <;> linarith

/-- The pay-type dispatch always yields a gross that is the 2-decimal
rounding of the raw sub-total sum; it exceeds the sum of the rounded
sub-totals by at most 2 cents, with exact equality for salaried pay. -/
theorem pay_data_for_ok (emp : Employee) (entries : List TimeEntry)
    (pd : PayData) (h : pay_data_for emp entries = .ok pd) :
    |pd.gross_pay - (pd.base_pay + pd.overtime_pay + pd.saturday_pay)| ≤
      1/50 ∧
    (emp.salary_type = some SALARY_TYPE_SALARY →
      pd.gross_pay = pd.base_pay + pd.overtime_pay + pd.saturday_pay) ∧
    (∃ q : ℚ, pd.gross_pay = roundTo 2 q) := by
  unfold pay_data_for at h
  by_cases hs : emp.salary_type = some SALARY_TYPE_SALARY
  · rw [if_pos hs] at h
    cases hb : emp.base_salary with
    | none =>
      rw [hb] at h
      exact absurd h (by simp)
    | some s =>
      rw [hb] at h
      injection h with h
      subst h
      refine ⟨?_, fun _ => ?_, ⟨s / WEEKS_PER_YEAR, rfl⟩⟩
      · simp [calculate_salary_pay]
      · simp [calculate_salary_pay]
  · rw [if_neg hs] at h
    by_cases hh : emp.salary_type = some SALARY_TYPE_HOURLY
    · rw [if_pos hh] at h
      cases hr : emp.hourly_rate with
      | none =>
        rw [hr] at h
        exact absurd h (by simp)
      | some r =>
        rw [hr] at h
        injection h with h
        subst h
        refine ⟨?_, fun hcon => absurd hcon hs, ⟨_, rfl⟩⟩
        simp only [calculate_hourly_pay]
        exact abs_round2_sum_sub _ _ _
    · rw [if_neg hh] at h
      exact absurd h (by simp)

theorem medical_deduction_int (m : String) :
    ∃ w : ℤ, calculate_medical_deduction m = (w : ℚ) := by
  unfold calculate_medical_deduction MEDICAL_DEDUCTION_FAMILY
    MEDICAL_DEDUCTION_SINGLE
  by_cases h : m = MEDICAL_TYPE_FAMILY
  · exact ⟨100, by rw [if_pos h]; norm_num⟩
  · exact ⟨50, by rw [if_neg h]; norm_num⟩

/-! ## C3 — gross pay decomposition -/

/-- C3 (amended): for every saved detail, grossPay is the 2-decimal
rounding of the unrounded base+overtime+weekend sum plus the dependent
stipend; it agrees with basePay + overtimePay + weekendPay +
dependentStipend to within $0.02, with exact equality for salaried
employees, but the exact equality on the stored rounded components can
fail for hourly employees. -/
theorem calculate_weekly_pay_gross_decomposition (emp : Employee)
    (period : PayrollPeriod) (existing : Option PayrollDetail)
    (entries : List TimeEntry) (eid : String) (d : PayrollDetail) (p2 : ℕ)
    (h : calculate_weekly_pay (some emp) period existing entries eid =
      .saved d p2) :
    |d.gross_pay - (d.base_pay + d.overtime_pay + d.saturday_pay +
      d.dependent_stipend)| ≤ 1/50 ∧
    (emp.salary_type = some SALARY_TYPE_SALARY →
      d.gross_pay = d.base_pay + d.overtime_pay + d.saturday_pay +
        d.dependent_stipend) := by
  obtain ⟨pid, hpid, hcs⟩ :=
    calculate_weekly_pay_saved emp period existing entries eid d p2 h
  obtain ⟨pd, hpd, hb, ho, hsat, hstip, hmed, hgr, htax, htot, hnet⟩ :=
    calculate_and_save_eq emp pid existing entries eid d p2 hcs
  obtain ⟨hclose, hexact, -⟩ := pay_data_for_ok emp entries pd hpd
  constructor
  · rw [hgr, hb, ho, hsat]
    rw [show pd.gross_pay + d.dependent_stipend -
        (pd.base_pay + pd.overtime_pay + pd.saturday_pay +
          d.dependent_stipend) =
        pd.gross_pay - (pd.base_pay + pd.overtime_pay + pd.saturday_pay)
      from by ring]
    exact hclose
  · intro hsal
    rw [hgr, hb, ho, hsat, hexact hsal]

/-- C3 counterexample: an hourly employee at $0.01/hour with 0.3 hours
on Monday and 0.2 hours on Saturday gets grossPay 0.01 while the sum of
the stored rounded components is 0.00 — the claimed exact equality on
the rounded component values fails. -/
theorem calculate_weekly_pay_gross_not_component_sum :
    ((calculate_weekly_pay (some cx3_emp) w6_period none [cx3_mon, cx3_sat]
        "E007").detail?).map
      (fun d => (d.gross_pay,
        d.base_pay + d.overtime_pay + d.saturday_pay + d.dependent_stipend)) =
      some (1/100, 0) ∧
    ((calculate_weekly_pay (some cx3_emp) w6_period none [cx3_mon, cx3_sat]
        "E007").detail?).map
      (fun d => decide (d.gross_pay =
        d.base_pay + d.overtime_pay + d.saturday_pay + d.dependent_stipend)) =
      some false := by
  constructor
  · decide
  · decide

/-- The weekly calculation of the spec's salaried scenario saves exactly
the row `w6_detail`. -/
theorem w6_saved :
    calculate_weekly_pay (some w6_emp) w6_period none [] "E006" =
      .saved w6_detail 1 := by
  rfl

/-- Witness for C3 at the salaried scenario: the bound and the exact
salaried equality both hold on the saved row. -/
theorem calculate_weekly_pay_gross_decomposition_witness :
    |w6_detail.gross_pay - (w6_detail.base_pay + w6_detail.overtime_pay +
      w6_detail.saturday_pay + w6_detail.dependent_stipend)| ≤ 1/50 ∧
    w6_detail.gross_pay = w6_detail.base_pay + w6_detail.overtime_pay +
      w6_detail.saturday_pay + w6_detail.dependent_stipend := by
  have h := calculate_weekly_pay_gross_decomposition w6_emp w6_period none []
    "E006" w6_detail 1 w6_saved
  exact ⟨h.1, h.2 rfl⟩

/-! ## C5 — taxable income and net pay -/

/-- C5: every saved detail stores taxableIncome = grossPay −
medicalDeduction (already an exact 2-decimal amount, so equal to its
half-up rounding) and netPay = the half-up 2-decimal rounding of
taxableIncome − totalEmployeeTaxes, where `round_currency` is
round-half-away-from-zero, not half-to-even. -/
theorem calculate_weekly_pay_net_rounding (emp : Employee)
    (period : PayrollPeriod) (existing : Option PayrollDetail)
    (entries : List TimeEntry) (eid : String) (d : PayrollDetail) (p2 : ℕ)
    (h : calculate_weekly_pay (some emp) period existing entries eid =
      .saved d p2) :
    d.taxable_income = d.gross_pay - d.medical_deduction ∧
    d.taxable_income = round_currency (d.gross_pay - d.medical_deduction) ∧
    d.net_pay = round_currency (d.taxable_income - d.total_employee_taxes) := by
  obtain ⟨pid, hpid, hcs⟩ :=
    calculate_weekly_pay_saved emp period existing entries eid d p2 h
  obtain ⟨pd, hpd, hb, ho, hsat, hstip, hmed, hgr, htax, htot, hnet⟩ :=
    calculate_and_save_eq emp pid existing entries eid d p2 hcs
  obtain ⟨-, -, q, hq⟩ := pay_data_for_ok emp entries pd hpd
  refine ⟨htax, ?_, hnet⟩
  obtain ⟨w, hw⟩ := medical_deduction_int (emp.medical_type.getD "Single")
  have hg100 : pd.gross_pay * 100 = ((rhe (q * 10 ^ 2) : ℤ) : ℚ) := by
    rw [hq]
    have h2 := roundTo_mul_pow 2 q
    rw [show ((10 : ℚ) ^ 2) = 100 from by norm_num] at h2
    exact h2
  have hX : (d.gross_pay - d.medical_deduction) * 100 =
      ((rhe (q * 10 ^ 2) + 4500 * (emp.num_dependents : ℤ) - 100 * w : ℤ) : ℚ) := by
    rw [hgr, hstip, hmed, hw]
    unfold calculate_dependent_stipend DEPENDENT_STIPEND_PER_DEPENDENT
    push_cast
    linear_combination hg100
  rw [htax]
  exact (round_currency_eq_self _ _ hX).symm

/-- Witness for C5 at the salaried scenario. -/
theorem calculate_weekly_pay_net_rounding_witness :
    w6_detail.taxable_income =
      w6_detail.gross_pay - w6_detail.medical_deduction ∧
    w6_detail.net_pay =
      round_currency (w6_detail.taxable_income -
        w6_detail.total_employee_taxes) := by
  have h := calculate_weekly_pay_net_rounding w6_emp w6_period none []
    "E006" w6_detail 1 w6_saved
  exact ⟨h.1, h.2.2⟩

/-! ## C6 — the salaried $78,000 scenario -/

/-- C6: a salaried employee with annual salary $78,000, Single medical
plan and 0 dependents gets, in one weekly calculation, exactly
basePay = grossPay = 1500.00, medicalDeduction = 50.00,
taxableIncome = 1450.00, stateTax = 45.6750, federalTax = 110.9250,
socialSecurityTax = 89.90, medicareTax = 21.0250,
totalEmployeeTaxes = 267.5250, and netPay = 1182.48 (1182.475 rounded
half-up). -/
theorem salaried_scenario_values :
    ((calculate_weekly_pay (some w6_emp) w6_period none [] "E006").detail?).map
      PayrollDetail.base_pay = some 1500 ∧
    ((calculate_weekly_pay (some w6_emp) w6_period none [] "E006").detail?).map
      PayrollDetail.gross_pay = some 1500 ∧
    ((calculate_weekly_pay (some w6_emp) w6_period none [] "E006").detail?).map
      PayrollDetail.medical_deduction = some 50 ∧
    ((calculate_weekly_pay (some w6_emp) w6_period none [] "E006").detail?).map
      PayrollDetail.taxable_income = some 1450 ∧
    ((calculate_weekly_pay (some w6_emp) w6_period none [] "E006").detail?).map
      PayrollDetail.state_tax = some (45675/1000) ∧
    ((calculate_weekly_pay (some w6_emp) w6_period none [] "E006").detail?).map
      PayrollDetail.federal_tax_employee = some (110925/1000) ∧
    ((calculate_weekly_pay (some w6_emp) w6_period none [] "E006").detail?).map
      PayrollDetail.social_security_employee = some (899/10) ∧
    ((calculate_weekly_pay (some w6_emp) w6_period none [] "E006").detail?).map
      PayrollDetail.medicare_employee = some (21025/1000) ∧
    ((calculate_weekly_pay (some w6_emp) w6_period none [] "E006").detail?).map
      PayrollDetail.total_employee_taxes = some (267525/1000) ∧
    ((calculate_weekly_pay (some w6_emp) w6_period none [] "E006").detail?).map
      PayrollDetail.net_pay = some (118248/100) := by
  refine ⟨?_, ?_, ?_, ?_, ?_, ?_, ?_, ?_, ?_, ?_⟩ <;> decide

/-! ## C8 — validation on submission -/

/-- The derived day-of-week of any day number is one of the seven day
names (`DAYS_OF_WEEK[d.weekday()]` in the source). -/
theorem get_day_of_week_mem (d : ℕ) : get_day_of_week d ∈ DAYS_OF_WEEK := by
  unfold get_day_of_week
  have h : d % 7 = 0 ∨ d % 7 = 1 ∨ d % 7 = 2 ∨ d % 7 = 3 ∨ d % 7 = 4 ∨
      d % 7 = 5 ∨ d % 7 = 6 := by omega
  rcases h with h | h | h | h | h | h | h <;> simp [h, DAYS_OF_WEEK]

theorem validate_eq_nil_iff (e : TimeEntry)
    (h1 : isBlank e.employee_id = false) (h2 : e.day_of_week ∈ DAYS_OF_WEEK) :
    e.validate = [] ↔
      ¬(e.hours_worked < 0 ∨ e.hours_worked > 24 ∨ e.pto_hours < 0 ∨
        e.pto_hours > 8 ∨ e.hours_worked + e.pto_hours > 24 ∨
        (e.day_of_week = "Saturday" ∧ e.is_saturday = false)) := by
  unfold TimeEntry.validate
  rw [if_neg (by simp [h1]), if_pos h2]
  simp only [List.nil_append, List.append_eq_nil, ite_eq_right_iff,
    List.cons_ne_nil, imp_false, MAX_HOURS_PER_DAY, MAX_PTO_HOURS_PER_DAY,
    TimeEntry.total_hours, Bool.not_eq_true]
  push_neg
  tauto

/-- C8 (amended): with an active employee, updating a stored entry that
is assigned to a locked period fails with the LockedPeriod error and
writes nothing; otherwise an update fails validation exactly when
hours worked < 0, hours worked > 24, PTO < 0, PTO > 8,
hours worked + PTO > 24, or the stored day-of-week is Saturday while the
weekend flag is NOT set — the converse weekend-flag violation (flag set
on a non-Saturday day) is not checked and passes; on the creation path
(no existing entry) the flag is derived from the date, so it always
satisfies the weekend-flag invariant and creation fails validation
exactly when one of the hour conditions holds. -/
theorem submit_time_entry_checks (emp : Employee) (ex : TimeEntry)
    (period_of : ℕ → Option PayrollPeriod) (eid : String) (dt : ℕ)
    (hw pto : ℚ) (notes : Option String)
    (hact : emp.status = EMPLOYEE_STATUS_ACTIVE) :
    (lockedFor period_of ex = true →
      submit_time_entry (some emp) (some ex) period_of eid dt hw pto notes =
        .failed .lockedPeriod) ∧
    (lockedFor period_of ex = false →
      isBlank ex.employee_id = false → ex.day_of_week ∈ DAYS_OF_WEEK →
      ((∃ errs, submit_time_entry (some emp) (some ex) period_of eid dt hw
          pto notes = .failed (.validationFailed errs)) ↔
        (hw < 0 ∨ hw > 24 ∨ pto < 0 ∨ pto > 8 ∨ hw + pto > 24 ∨
          (ex.day_of_week = "Saturday" ∧ ex.is_saturday = false)))) ∧
    (isBlank eid = false →
      ((∃ errs, submit_time_entry (some emp) none period_of eid dt hw
          pto notes = .failed (.validationFailed errs)) ↔
        (hw < 0 ∨ hw > 24 ∨ pto < 0 ∨ pto > 8 ∨ hw + pto > 24))) ∧
    ((TimeEntry.create_entry eid dt hw pto notes).is_saturday = true ↔
      (TimeEntry.create_entry eid dt hw pto notes).day_of_week =
        "Saturday") := by
  refine ⟨?_, ?_, ?_, ?_⟩
  · intro hlf
    simp [submit_time_entry, hact, hlf]
  case refine_3 =>
    intro h1
    have hmem : (TimeEntry.create_entry eid dt hw pto notes).day_of_week ∈
        DAYS_OF_WEEK := by
      simpa [TimeEntry.create_entry] using get_day_of_week_mem dt
    have hiff := validate_eq_nil_iff (TimeEntry.create_entry eid dt hw pto
      notes) (by simpa [TimeEntry.create_entry] using h1) hmem
    simp only [TimeEntry.create_entry, decide_eq_false_iff_not,
      and_not_self_iff, or_false] at hiff
    have hres : submit_time_entry (some emp) none period_of eid dt hw pto
        notes =
        (if (TimeEntry.create_entry eid dt hw pto notes).validate ≠ [] then
          .failed (.validationFailed
            (TimeEntry.create_entry eid dt hw pto notes).validate)
        else .created (TimeEntry.create_entry eid dt hw pto notes)) := by
      simp [submit_time_entry, hact]
    constructor
    · rintro ⟨errs, he⟩
      by_cases hv : (TimeEntry.create_entry eid dt hw pto notes).validate = []
      · rw [hres, if_neg (by simp [hv])] at he
        exact absurd he (by simp)
      · exact not_not.mp ((not_iff_not.mpr hiff).mp hv)
    · intro hdisj
      have hne : (TimeEntry.create_entry eid dt hw pto notes).validate ≠
          [] := by
        intro hnil
        exact (hiff.mp hnil) hdisj
      refine ⟨(TimeEntry.create_entry eid dt hw pto notes).validate, ?_⟩
      rw [hres, if_pos hne]
  case refine_4 =>
    simp [TimeEntry.create_entry]
  · intro hlf h1 h2
    have hiff : (ex.withSubmitted hw pto notes).validate = [] ↔
        ¬(hw < 0 ∨ hw > 24 ∨ pto < 0 ∨ pto > 8 ∨ hw + pto > 24 ∨
          (ex.day_of_week = "Saturday" ∧ ex.is_saturday = false)) := by
      have h := validate_eq_nil_iff (ex.withSubmitted hw pto notes)
        (by simpa [TimeEntry.withSubmitted] using h1)
        (by simpa [TimeEntry.withSubmitted] using h2)
      simpa [TimeEntry.withSubmitted] using h
    have hres : submit_time_entry (some emp) (some ex) period_of eid dt hw
        pto notes =
        (if (ex.withSubmitted hw pto notes).validate ≠ [] then
          .failed (.validationFailed (ex.withSubmitted hw pto notes).validate)
        else .updated (ex.withSubmitted hw pto notes)) := by
      simp [submit_time_entry, hact, hlf]
    constructor
    · rintro ⟨errs, he⟩
      by_cases hv : (ex.withSubmitted hw pto notes).validate = []
      · rw [hres, if_neg (by simp [hv])] at he
        exact absurd he (by simp)
      · exact not_not.mp ((not_iff_not.mpr hiff).mp hv)
    · intro hdisj
      have hne : (ex.withSubmitted hw pto notes).validate ≠ [] := by
        intro hnil
        exact (hiff.mp hnil) hdisj
      refine ⟨(ex.withSubmitted hw pto notes).validate, ?_⟩
      rw [hres, if_pos hne]

/-- C8 counterexample: a stored Monday entry whose weekend flag is
wrongly set violates the §3 invariant (flag true exactly on Saturday),
yet `submit_time_entry` updates it without any validation failure. -/
theorem submit_accepts_weekend_flag_on_monday :
    (cx8_entry.is_saturday = true ∧ cx8_entry.day_of_week ≠ "Saturday") ∧
    submit_time_entry (some cx8_emp) (some cx8_entry) (fun _ => none) "E001"
      0 8 0 none = .updated (cx8_entry.withSubmitted 8 0 none) := by
  constructor
  · decide
  · decide

/-- Witness for C8: an update to an entry assigned to a locked period
fails with the LockedPeriod error. -/
theorem submit_time_entry_checks_witness :
    submit_time_entry (some cx8_emp) (some w8_entry)
      (fun _ => some w8_period) "E001" 2 9 0 none = .failed .lockedPeriod := by
  have h := submit_time_entry_checks cx8_emp w8_entry
    (fun _ => some w8_period) "E001" 2 9 0 none rfl
  exact h.1 (by decide)

end

end Payroll
